import Mathlib

/-!
Verification of the WearOS connector script (src/index.ts).

The script is sequential glue around an external `adb` executable: it locates
the tool, probes for a connected device, pairs/connects over the network, and
lists packages and storage.  We embed each function of `src/index.ts` as a pure
Lean function.  Interaction with the outside world (the shell, the filesystem,
the clock, the interactive prompt) is abstracted into an environment `Env`;
each embedded routine returns the updated mutable state (the in-memory debug
log and a clock counter) together with a trace of observable events (console
prints, executed command strings, file writes, prompts, process exit).
-/

/-- Result shape returned by `execCommand` (src/index.ts lines 24-34):
stdout, stderr and exit code.  JavaScript stores the raw thrown value in
`stderr` on the failure path; callers only ever interpolate it into strings,
so we model it by its string form. -/
structure CmdResult where
  stdout : String
  stderr : String
  exitCode : Nat
deriving Repr, DecidableEq

/-- Outcome of the try-block body of `execCommand` (src/index.ts lines 15-28)
for one invocation, as determined by the outside world.

With `.throws(true)` (line 22), a command that runs to completion with a
non-zero exit code surfaces as a thrown `ShellError`; `errText` is the string
form of that error object (an object is always truthy in JavaScript).
`raises` covers every other throw inside the try block, including a failure of
the builtin `adb devices` diagnostic on line 17 (in which case the requested
command never runs); `text` is the string form of the thrown value and
`falsy` records whether the thrown value is falsy in JavaScript (for example
an empty string, `0` or `null`). -/
inductive ShellOutcome where
  | completes (stdout stderr : String) (exitCode : Nat) (errText : String)
  | raises (text : String) (falsy : Bool)
deriving Repr, DecidableEq

/-- Embedding of `execCommand` (src/index.ts lines 14-35).  The catch on
lines 29-34 makes the function total: it never propagates an exception.
On the happy path it returns the captured stdout, stderr and exit code; when
the invocation throws it returns the thrown value as `stderr` if the value is
truthy (line 31) and `"Unknown error"` otherwise (line 33), with exit code 1
and empty stdout in both cases. -/
def execCommand : ShellOutcome → CmdResult
  | .completes out err code errText =>
    if code = 0 then { stdout := out, stderr := err, exitCode := code }
    else { stdout := "", stderr := errText, exitCode := 1 }
  | .raises text falsy =>
    if falsy then { stdout := "", stderr := "Unknown error", exitCode := 1 }
    else { stdout := "", stderr := text, exitCode := 1 }

/-- Whitespace characters trimmed by the JavaScript string `trim` method
(restricted to the ASCII whitespace class, which is all that occurs here). -/
def isWs (c : Char) : Bool :=
  c = ' ' || c = '\t' || c = '\n' || c = '\r' || c = '\x0b' || c = '\x0c'

/-- Model of the JavaScript `trim` method on the character list. -/
def trimChars (l : List Char) : List Char :=
  ((l.dropWhile isWs).reverse.dropWhile isWs).reverse

/-- Model of the JavaScript string `trim` method. -/
def jsTrim (s : String) : String := String.mk (trimChars s.data)

/-- Model of the JavaScript `split("\n")` on a character list: splits at every
newline, keeping empty segments (so the empty input yields one empty
segment, exactly as in JavaScript). -/
def splitNlChars : List Char → List (List Char)
  | [] => [[]]
  | c :: rest =>
    let r := splitNlChars rest
    if c = '\n' then [] :: r
    else
      match r with
      | [] => [[c]]
      | h :: t => (c :: h) :: t

/-- Model of the JavaScript `split("\n")` method. -/
def jsSplitNl (s : String) : List String :=
  (splitNlChars s.data).map String.mk

/-- Auxiliary substring search on character lists. -/
def hasSubAux (pat : List Char) : List Char → Bool
  | [] => pat.isEmpty
  | c :: rest => pat.isPrefixOf (c :: rest) || hasSubAux pat rest

/-- Model of the JavaScript string `includes` method. -/
def jsIncludes (s pat : String) : Bool := hasSubAux pat.data s.data

/-- A calendar instant as carried by a JavaScript `Date` object, in UTC,
already broken into the fields that `toISOString` prints.  A real `Date`
produced by `new Date()` always holds a valid instant; `ValidDT` captures
the corresponding field bounds. -/
structure DateTime where
  year : Nat
  month : Nat
  day : Nat
  hour : Nat
  minute : Nat
  second : Nat
  ms : Nat
deriving Repr, DecidableEq

/-- Field bounds of a valid calendar instant within the four-digit-year
range that `Date.prototype.toISOString` prints in the `YYYY-MM-DD` form. -/
def ValidDT (d : DateTime) : Prop :=
  d.year ≤ 9999 ∧ 1 ≤ d.month ∧ d.month ≤ 12 ∧ 1 ≤ d.day ∧ d.day ≤ 31 ∧
    d.hour ≤ 23 ∧ d.minute ≤ 59 ∧ d.second ≤ 59 ∧ d.ms ≤ 999

instance (d : DateTime) : Decidable (ValidDT d) := by
  unfold ValidDT; infer_instance

/-- Decimal digit character of `n % 10`. -/
def digitChar (n : Nat) : Char :=
  match n % 10 with
  | 0 => '0' | 1 => '1' | 2 => '2' | 3 => '3' | 4 => '4'
  | 5 => '5' | 6 => '6' | 7 => '7' | 8 => '8' | _ => '9'

/-- Numeric value of a digit character. -/
def digitVal (c : Char) : Nat := c.toNat - 48

/-- Two-digit zero-padded decimal rendering, as produced by `toISOString`
for month, day, hour, minute and second fields (all below 100). -/
def pad2 (n : Nat) : String := String.mk [digitChar (n / 10), digitChar n]

/-- Three-digit zero-padded decimal rendering of the milliseconds field. -/
def pad3 (n : Nat) : String :=
  String.mk [digitChar (n / 100), digitChar (n / 10), digitChar n]

/-- Four-digit zero-padded decimal rendering of the year field. -/
def pad4 (n : Nat) : String :=
  String.mk [digitChar (n / 1000), digitChar (n / 100), digitChar (n / 10), digitChar n]

/-- Model of `Date.prototype.toISOString` on a valid instant with a
four-digit year: the fixed 24-character `YYYY-MM-DDTHH:mm:ss.sssZ` form. -/
def toISOString (d : DateTime) : String :=
  pad4 d.year ++ "-" ++ pad2 d.month ++ "-" ++ pad2 d.day ++ "T" ++
    pad2 d.hour ++ ":" ++ pad2 d.minute ++ ":" ++ pad2 d.second ++ "." ++
    pad3 d.ms ++ "Z"

/-- Checker for a simplified ISO-8601 UTC timestamp: exactly the
24-character `YYYY-MM-DDTHH:mm:ss.sssZ` layout with all digit positions
holding digits, the fixed separators in place, and the month, day, hour,
minute and second fields within their calendar ranges. -/
def validISO8601 (s : String) : Bool :=
  match s.data with
  | [y1, y2, y3, y4, a1, mo1, mo2, a2, d1, d2, t1, h1, h2, b1, mi1, mi2, b2,
      se1, se2, dot, f1, f2, f3, z1] =>
    y1.isDigit && y2.isDigit && y3.isDigit && y4.isDigit &&
    mo1.isDigit && mo2.isDigit && d1.isDigit && d2.isDigit &&
    h1.isDigit && h2.isDigit && mi1.isDigit && mi2.isDigit &&
    se1.isDigit && se2.isDigit && f1.isDigit && f2.isDigit && f3.isDigit &&
    (a1 == '-') && (a2 == '-') && (t1 == 'T') && (b1 == ':') && (b2 == ':') &&
    (dot == '.') && (z1 == 'Z') &&
    decide (1 ≤ 10 * digitVal mo1 + digitVal mo2) &&
    decide (10 * digitVal mo1 + digitVal mo2 ≤ 12) &&
    decide (1 ≤ 10 * digitVal d1 + digitVal d2) &&
    decide (10 * digitVal d1 + digitVal d2 ≤ 31) &&
    decide (10 * digitVal h1 + digitVal h2 ≤ 23) &&
    decide (10 * digitVal mi1 + digitVal mi2 ≤ 59) &&
    decide (10 * digitVal se1 + digitVal se2 ≤ 59)
  | _ => false

/-- Observable events of a run.  `out` is an uncolored `console.log`;
`outColored` and `errColored` are `console.log` and `console.error` of
`colorText text color` (we record the text and the color name rather than
the expanded ANSI escape sequence); `run` is a command string handed to
`execCommand`; `fwrite` is the `Bun.write` call of the debug logger;
`ask` is an interactive `question` prompt; `exit` is `process.exit`.
The purely diagnostic prints inside `execCommand` (lines 17 and 23) and the
`console.log(lines)` on line 87, which print shell-object and array noise
with no control-flow effect, are not traced. -/
inductive Event where
  | out (s : String)
  | outColored (text color : String)
  | errColored (text color : String)
  | run (cmd : String)
  | fwrite (path content : String)
  | ask (prompt : String)
  | probe (path : String)
  | exit (code : Nat)
deriving Repr, DecidableEq

/-- The outside world for one run: the behavior of the shell on each command
string handed to `execCommand`, the size reported by `Bun.file(path).size`
for each path, the home directory, the three interactive answers, and the
clock (`clock n` is the instant read by the n-th `new Date()` of the run). -/
structure Env where
  shell : String → ShellOutcome
  fileSize : String → Nat
  home : String
  ip : String
  port : String
  pairCode : String
  clock : Nat → DateTime

/-- Mutable module-level state of the script: the accumulated in-memory
`debugLog` string and the number of debug-log calls made so far (which
indexes the clock). -/
structure St where
  log : String
  tick : Nat
deriving Repr, DecidableEq

/-- Shorthand for running one command through the executor under `env`. -/
def runCmd (env : Env) (cmd : String) : CmdResult := execCommand (env.shell cmd)

/-- File path targeted by the debug logger on line 50 of src/index.ts.
The string literal in the source ends with a space before the closing
quote; the model reproduces it verbatim. -/
def logFilePath : String := "wearos_connector_debug.log "

/-- The line appended per debug-log call (line 48): ISO timestamp, colon,
space, message, newline. -/
def logLine (d : DateTime) (msg : String) : String :=
  toISOString d ++ ": " ++ msg ++ "\n"

/-- Embedding of `addToDebugLog` (lines 47-54) at one instant `d`: appends
the line to the in-memory log, writes that single line to `logFilePath`,
and echoes the message to standard output. -/
def addToDebugLog (d : DateTime) (msg : String) (log : String) :
    String × List Event :=
  (log ++ logLine d msg,
   [Event.fwrite logFilePath (logLine d msg), Event.out msg])

/-- State-threading wrapper of `addToDebugLog`: reads the clock at the
current tick and advances the tick. -/
def logStep (env : Env) (st : St) (msg : String) : St × List Event :=
  (⟨(addToDebugLog (env.clock st.tick) msg st.log).1, st.tick + 1⟩,
   (addToDebugLog (env.clock st.tick) msg st.log).2)

/-- Fallback installation paths probed by `findAdbPath` (lines 62-68), in
source order.  `join(homedir(), p)` is modelled as `home ++ "/" ++ p`. -/
def commonPaths (home : String) : List String :=
  ["/usr/local/bin/adb",
   "/opt/homebrew/bin/adb",
   home ++ "/Library/Android/sdk/platform-tools/adb",
   home ++ "/Android/Sdk/platform-tools/adb",
   "/usr/bin/adb"]

/-- Embedding of `fileExists` (line 8): true when the reported file size is
greater than zero. -/
def fileExists (env : Env) (path : String) : Bool :=
  decide (0 < env.fileSize path)

/-- The for-loop of lines 70-72: the first path that exists, with the list
of probed paths as trace. -/
def firstExisting (env : Env) : List String → Option String × List Event
  | [] => (none, [])
  | p :: rest =>
    if fileExists env p then (some p, [Event.probe p])
    else
      ((firstExisting env rest).1, Event.probe p :: (firstExisting env rest).2)

/-- Embedding of `findAdbPath` (lines 56-79).  Runs `which adb` through the
executor, prints its stdout (line 59); if the exit code is 0 and the trimmed
output is non-empty, returns that trimmed output, otherwise falls back to
probing `commonPaths` in order and returns the first existing one, or `none`.
The catch on lines 75-78 is unreachable: the body consists of the
non-throwing executor, a print, pure string operations and `fileExists`. -/
def findAdbPath (env : Env) : Option String × List Event :=
  let r := runCmd env "which adb"
  let evs := [Event.run "which adb", Event.out r.stdout]
  if r.exitCode == 0 && jsTrim r.stdout != "" then
    (some (jsTrim r.stdout), evs)
  else
    ((firstExisting env (commonPaths env.home)).1,
     evs ++ (firstExisting env (commonPaths env.home)).2)

/-- Non-blank line count of a device-list output, exactly as computed on
line 86: split on newline, drop lines whose trim is empty. -/
def nonBlankLineCount (s : String) : Nat :=
  ((jsSplitNl s).filter (fun l => jsTrim l != "")).length

/-- The boolean decided on line 89 of `isDeviceConnected` from the executor
result: exit code 0 and more than one non-blank line. -/
def isDeviceConnectedResult (r : CmdResult) : Bool :=
  r.exitCode == 0 && decide (1 < nonBlankLineCount r.stdout)

/-- Embedding of `isDeviceConnected` (lines 81-94): runs `adb devices`
(note the literal program name), logs the output, and returns the
line-count heuristic.  The catch on lines 90-93 is unreachable because the
body never throws. -/
def isDeviceConnected (env : Env) (st : St) : Bool × St × List Event :=
  let r := runCmd env "adb devices"
  (isDeviceConnectedResult r,
   (logStep env st ("ADB devices output: " ++ r.stdout)).1,
   Event.run "adb devices" :: (logStep env st ("ADB devices output: " ++ r.stdout)).2)

/-- Pair command string built on line 99: literal program name `adb`, not
the resolved tool path. -/
def pairCommand (ip port code : String) : String :=
  "adb pair " ++ ip ++ ":" ++ port ++ " " ++ code

/-- Connect command string built on line 121: literal program name `adb`. -/
def connectCommand (ip port : String) : String :=
  "adb connect " ++ ip ++ ":" ++ port

/-- Package-list command string built on lines 143-144: interpolates the
module-level resolved tool path. -/
def appsCommand (toolPath : String) : String :=
  toolPath ++ " shell pm list packages"

/-- Disk-free command string built on lines 171-172: interpolates the
module-level resolved tool path. -/
def dfCommand (toolPath : String) : String :=
  toolPath ++ " shell df"

/-- The offline hint printed on lines 156-161 and 181-187. -/
def offlineHint : String :=
  "Device is offline. Please ensure it\x27s connected and try again."

/-- A caught JavaScript exception as tested by the catch blocks of the info
routines: whether the value is an `Error` instance, and its string form
(equal to `e.message` up to the `Error` prefixing, which the `includes`
test does not distinguish for the substring at issue). -/
structure ExnInfo where
  isError : Bool
  message : String
deriving Repr, DecidableEq

/-- Catch handler of `getInstalledApps` (lines 154-166): an `Error` whose
message contains "device offline" gets the specific hint, any other thrown
value gets the generic error print; both branches then log the exception. -/
def getInstalledAppsCatch (env : Env) (st : St) (e : ExnInfo) :
    St × List Event :=
  let evs :=
    if e.isError && jsIncludes e.message "device offline" then
      [Event.errColored offlineHint "yellow"]
    else
      [Event.errColored ("Error getting installed apps: " ++ e.message) "red"]
  ((logStep env st ("Exception details: " ++ e.message)).1,
   evs ++ (logStep env st ("Exception details: " ++ e.message)).2)

/-- Try body of `getInstalledApps` (lines 142-153), which never throws:
the executor is total and the remaining statements are prints. -/
def getInstalledAppsTry (toolPath : String) (env : Env) (st : St) :
    Except ExnInfo (St × List Event) :=
  let r := runCmd env (appsCommand toolPath)
  if r.exitCode == 0 then
    .ok (st, [Event.run (appsCommand toolPath),
              Event.outColored "Installed Apps:" "blue", Event.out r.stdout])
  else
    .ok (st, [Event.run (appsCommand toolPath),
              Event.errColored ("Failed to get installed apps: " ++ r.stderr) "red"])

/-- Embedding of `getInstalledApps` (lines 141-167): the try body with the
catch handler around it. -/
def getInstalledApps (toolPath : String) (env : Env) (st : St) :
    St × List Event :=
  match getInstalledAppsTry toolPath env st with
  | .ok res => res
  | .error e => getInstalledAppsCatch env st e

/-- Catch handler of `getStorageInfo` (lines 180-192), same shape as the
installed-apps handler. -/
def getStorageInfoCatch (env : Env) (st : St) (e : ExnInfo) :
    St × List Event :=
  let evs :=
    if e.isError && jsIncludes e.message "device offline" then
      [Event.errColored offlineHint "yellow"]
    else
      [Event.errColored ("Error getting storage info: " ++ e.message) "red"]
  ((logStep env st ("Exception details: " ++ e.message)).1,
   evs ++ (logStep env st ("Exception details: " ++ e.message)).2)

/-- Try body of `getStorageInfo` (lines 170-179), which never throws. -/
def getStorageInfoTry (toolPath : String) (env : Env) (st : St) :
    Except ExnInfo (St × List Event) :=
  let r := runCmd env (dfCommand toolPath)
  if r.exitCode == 0 then
    .ok (st, [Event.run (dfCommand toolPath),
              Event.outColored "Storage Info:" "blue", Event.out r.stdout])
  else
    .ok (st, [Event.run (dfCommand toolPath),
              Event.errColored ("Failed to get storage info: " ++ r.stderr) "red"])

/-- Embedding of `getStorageInfo` (lines 169-193). -/
def getStorageInfo (toolPath : String) (env : Env) (st : St) :
    St × List Event :=
  match getStorageInfoTry toolPath env st with
  | .ok res => res
  | .error e => getStorageInfoCatch env st e

/-- Embedding of `connectDevice` (lines 119-139).  Logs the command, runs
it, logs stdout, stderr and exit code; on exit 0 prints success and chains
into the two info routines (which read the module-level tool path, passed
here as `toolPath`); otherwise prints the connection failure.  The catch on
lines 135-138 is unreachable: every statement of the body is non-throwing. -/
def connectDevice (toolPath : String) (env : Env) (st : St) (ip port : String) :
    St × List Event :=
  let cmd := connectCommand ip port
  let s1 := logStep env st ("Connecting device with command: " ++ cmd)
  let r := runCmd env cmd
  let s2 := logStep env s1.1 ("Connect stdout: " ++ r.stdout)
  let s3 := logStep env s2.1 ("Connect stderr: " ++ r.stderr)
  let s4 := logStep env s3.1 ("Connect exit code: " ++ toString r.exitCode)
  if r.exitCode == 0 then
    let a := getInstalledApps toolPath env s4.1
    let b := getStorageInfo toolPath env a.1
    (b.1, s1.2 ++ [Event.run cmd] ++ s2.2 ++ s3.2 ++ s4.2 ++
          [Event.outColored "Device connected successfully" "green"] ++ a.2 ++ b.2)
  else
    (s4.1, s1.2 ++ [Event.run cmd] ++ s2.2 ++ s3.2 ++ s4.2 ++
           [Event.errColored ("Connection failed: " ++ r.stderr) "red"])

/-- Embedding of `pairDevice` (lines 96-117).  Logs the attempt and the
command, runs it, logs stdout, stderr and exit code; on exit 0 prints
success and chains into `connectDevice` with the same address and port;
otherwise prints the pairing failure and returns without connecting.  The
catch on lines 113-116 is unreachable: the body is non-throwing. -/
def pairDevice (toolPath : String) (env : Env) (st : St)
    (ip port code : String) : St × List Event :=
  let s1 := logStep env st "Attempting to pair device..."
  let cmd := pairCommand ip port code
  let s2 := logStep env s1.1 ("Command: " ++ cmd)
  let r := runCmd env cmd
  let s3 := logStep env s2.1 ("Stdout: " ++ r.stdout)
  let s4 := logStep env s3.1 ("Stderr: " ++ r.stderr)
  let s5 := logStep env s4.1 ("Exit code: " ++ toString r.exitCode)
  if r.exitCode == 0 then
    let c := connectDevice toolPath env s5.1 ip port
    (c.1, s1.2 ++ s2.2 ++ [Event.run cmd] ++ s3.2 ++ s4.2 ++ s5.2 ++
          [Event.outColored "Device paired successfully" "green"] ++ c.2)
  else
    (s5.1, s1.2 ++ s2.2 ++ [Event.run cmd] ++ s3.2 ++ s4.2 ++ s5.2 ++
           [Event.errColored ("Pairing failed: " ++ r.stderr) "red"])

/-- The prompt sequence of the not-connected branch (lines 216-219). -/
def promptEvents : List Event :=
  [Event.outColored "No device connected. Let\x27s connect one." "yellow",
   Event.ask "Enter IP Address: ",
   Event.ask "Enter Port: ",
   Event.ask "Enter Pair Code: "]

/-- The already-connected branch of `main` (lines 212-214). -/
def mainConnected (toolPath : String) (env : Env) (st : St) :
    St × List Event :=
  let a := getInstalledApps toolPath env st
  let b := getStorageInfo toolPath env a.1
  (b.1, Event.outColored "A device is already connected." "green" :: (a.2 ++ b.2))

/-- The not-connected branch of `main` (lines 216-222): prompt for the three
values, pair, and then invoke `connectDevice` again unconditionally
(line 222 runs regardless of the pairing outcome). -/
def mainNotConnected (toolPath : String) (env : Env) (st : St) :
    St × List Event :=
  let p := pairDevice toolPath env st env.ip env.port env.pairCode
  let c := connectDevice toolPath env p.1 env.ip env.port
  (c.1, promptEvents ++ p.2 ++ c.2)

/-- The fatal message of lines 200-205. -/
def notFoundMsg : String :=
  "ADB not found. Please install it and add it to your PATH."

/-- The closing message of lines 228-233; note it names the log file
without the trailing space that `logFilePath` carries. -/
def savedMsg : String :=
  "\nFull debug log has been saved to wearos_connector_debug.log"

/-- The closing prints of `main` (lines 225-233): the debug-log banner, the
accumulated in-memory log, and the saved-file announcement. -/
def finishEvents (log : String) : List Event :=
  [Event.outColored "\nDebug Log:" "magenta", Event.out log,
   Event.outColored savedMsg "yellow"]

/-- Embedding of `main` (lines 195-236).  Prints the banner, resolves the
tool path (exiting with status 1 when absent — `findAdbPath` never returns
an empty string, so the falsy test on line 199 coincides with the null
test), announces the path, probes the connection, runs the matching branch,
and always closes with `finishEvents` over the final in-memory log. -/
def mainRun (env : Env) : St × List Event :=
  let banner := [Event.outColored "WearOS Connector" "cyan"]
  let f := findAdbPath env
  match f.1 with
  | none =>
    (⟨"", 0⟩, banner ++ f.2 ++ [Event.errColored notFoundMsg "red", Event.exit 1])
  | some toolPath =>
    let foundEv := [Event.outColored ("ADB found at: " ++ toolPath) "green"]
    let probe := isDeviceConnected env ⟨"", 0⟩
    let body :=
      if probe.1 then mainConnected toolPath env probe.2.1
      else mainNotConnected toolPath env probe.2.1
    (body.1, banner ++ f.2 ++ foundEv ++ probe.2.2 ++ body.2 ++
             finishEvents body.1.log)

/-- Sequential replay of a list of debug-logger calls, each given as the
instant read from the clock and the message: the final in-memory log and
the concatenated event trace, in call order. -/
def runLog : List (DateTime × String) → String → String × List Event
  | [], log => (log, [])
  | (d, m) :: rest, log =>
    ((runLog rest (addToDebugLog d m log).1).1,
     (addToDebugLog d m log).2 ++ (runLog rest (addToDebugLog d m log).1).2)

/-- The log entry contributed by one call. -/
def logEntry (c : DateTime × String) : String := logLine c.1 c.2

/-- Concatenation of a list of strings, in order. -/
def concatAll : List String → String
  | [] => ""
  | s :: rest => s ++ concatAll rest

/-- The event trace of the failing branch of `pairDevice` (lines 97-112 up
to the `else` of line 110): the five debug-log steps, the single executed
pair command, and the pairing-failure print.  No connect command appears. -/
def pairFailTrace (env : Env) (st : St) (ip port code : String) : List Event :=
  let s1 := logStep env st "Attempting to pair device..."
  let s2 := logStep env s1.1 ("Command: " ++ pairCommand ip port code)
  let r := runCmd env (pairCommand ip port code)
  let s3 := logStep env s2.1 ("Stdout: " ++ r.stdout)
  let s4 := logStep env s3.1 ("Stderr: " ++ r.stderr)
  let s5 := logStep env s4.1 ("Exit code: " ++ toString r.exitCode)
  s1.2 ++ s2.2 ++ [Event.run (pairCommand ip port code)] ++ s3.2 ++ s4.2 ++
    s5.2 ++ [Event.errColored ("Pairing failed: " ++ r.stderr) "red"]

/-- A sample valid instant used by the concrete test environments. -/
def dt0 : DateTime := ⟨2024, 5, 17, 12, 30, 45, 123⟩

/-- A second sample valid instant. -/
def dt1 : DateTime := ⟨2025, 12, 31, 23, 59, 59, 999⟩

/-- Concrete world for the not-connected scenario: the tool is found via
`which`, the device list has a single non-blank (header) line, and the pair
and connect commands both fail with non-zero exit codes. -/
def env1 : Env :=
  { shell := fun c =>
      if c = "which adb" then .completes "/usr/bin/adb\n" "" 0 ""
      else if c = "adb devices" then .completes "List of devices attached\n\n" "" 0 ""
      else if c = "adb pair 10.0.0.2:5555 123456" then
        .completes "" "" 1 "ShellError: pairing failed"
      else if c = "adb connect 10.0.0.2:5555" then
        .completes "" "" 1 "ShellError: connection refused"
      else .completes "" "" 0 "",
    fileSize := fun _ => 0,
    home := "/home/user",
    ip := "10.0.0.2", port := "5555", pairCode := "123456",
    clock := fun _ => dt0 }

/-- Concrete world where the package-list command fails with an error whose
text contains "device offline" (the invocation throws before the command
completes, so the executor returns exit code 1 with that text). -/
def env3 : Env :=
  { shell := fun c =>
      if c = "/usr/bin/adb shell pm list packages" then
        .raises "adb: device offline" false
      else .completes "" "" 0 "",
    fileSize := fun _ => 0,
    home := "/home/user",
    ip := "", port := "", pairCode := "",
    clock := fun _ => dt0 }

/-- Concrete world where `which adb` succeeds with a trailing newline. -/
def env5 : Env :=
  { shell := fun c =>
      if c = "which adb" then .completes "/usr/bin/adb\n" "" 0 ""
      else .completes "" "" 0 "",
    fileSize := fun _ => 0,
    home := "/home/user",
    ip := "", port := "", pairCode := "",
    clock := fun _ => dt0 }

/-! Helper lemmas. -/

theorem digitChar_isDigit (n : Nat) : (digitChar n).isDigit = true := by
  have h : n % 10 < 10 := Nat.mod_lt _ (by decide)
  unfold digitChar
  generalize hk : n % 10 = k at h ⊢
  interval_cases k <;> decide

theorem digitVal_digitChar (n : Nat) : digitVal (digitChar n) = n % 10 := by
  have h : n % 10 < 10 := Nat.mod_lt _ (by decide)
  unfold digitChar
  generalize hk : n % 10 = k at h ⊢
  interval_cases k <;> decide

theorem toISOString_data (d : DateTime) :
    (toISOString d).data =
      [digitChar (d.year / 1000), digitChar (d.year / 100),
       digitChar (d.year / 10), digitChar d.year, '-',
       digitChar (d.month / 10), digitChar d.month, '-',
       digitChar (d.day / 10), digitChar d.day, 'T',
       digitChar (d.hour / 10), digitChar d.hour, ':',
       digitChar (d.minute / 10), digitChar d.minute, ':',
       digitChar (d.second / 10), digitChar d.second, '.',
       digitChar (d.ms / 100), digitChar (d.ms / 10), digitChar d.ms, 'Z'] := rfl

theorem validISO_of_valid (d : DateTime) (h : ValidDT d) :
    validISO8601 (toISOString d) = true := by
  obtain ⟨hy, hm1, hm2, hd1, hd2, hh, hmi, hs, hms⟩ := h
  unfold validISO8601
  rw [toISOString_data]
  simp only [digitChar_isDigit, digitVal_digitChar, Bool.and_eq_true, beq_iff_eq,
    decide_eq_true_eq, and_true, true_and, Bool.true_and, Bool.and_true]
  omega

theorem runLog_spec (calls : List (DateTime × String)) :
    ∀ log : String,
      (runLog calls log).1 = log ++ concatAll (calls.map logEntry) ∧
      (runLog calls log).2 =
        calls.flatMap
          (fun c => [Event.fwrite logFilePath (logEntry c), Event.out c.2]) := by
  induction calls with
  | nil => intro log; simp [runLog, concatAll, String.append_empty]
  | cons c rest ih =>
    intro log
    obtain ⟨d, m⟩ := c
    have h1 := (ih (addToDebugLog d m log).1).1
    have h2 := (ih (addToDebugLog d m log).1).2
    simp only [addToDebugLog] at h1 h2
    constructor
    · simp only [runLog, addToDebugLog, List.map_cons, concatAll, logEntry]
      rw [h1, String.append_assoc]
    · simp only [runLog, addToDebugLog, List.flatMap_cons, logEntry]
      rw [h2]
      rfl

theorem firstExisting_eq_find (env : Env) (l : List String) :
    (firstExisting env l).1 = l.find? (fileExists env) := by
  induction l with
  | nil => rfl
  | cons p rest ih =>
    unfold firstExisting
    rcases h : fileExists env p with _ | _ <;> simp [List.find?, h, ih]

theorem run_mem_connectDevice (toolPath : String) (env : Env) (st : St)
    (ip port : String) :
    Event.run (connectCommand ip port) ∈ (connectDevice toolPath env st ip port).2 := by
  unfold connectDevice
  rcases h : (runCmd env (connectCommand ip port)).exitCode == 0 with _ | _ <;> simp [h]

theorem run_mem_pairDevice (toolPath : String) (env : Env) (st : St)
    (ip port code : String) :
    Event.run (pairCommand ip port code) ∈ (pairDevice toolPath env st ip port code).2 := by
  unfold pairDevice
  rcases h : (runCmd env (pairCommand ip port code)).exitCode == 0 with _ | _ <;> simp [h]

theorem run_mem_apps (toolPath : String) (env : Env) (st : St) :
    Event.run (appsCommand toolPath) ∈ (getInstalledApps toolPath env st).2 := by
  unfold getInstalledApps getInstalledAppsTry
  rcases h : (runCmd env (appsCommand toolPath)).exitCode == 0 with _ | _ <;> simp [h]

theorem run_mem_storage (toolPath : String) (env : Env) (st : St) :
    Event.run (dfCommand toolPath) ∈ (getStorageInfo toolPath env st).2 := by
  unfold getStorageInfo getStorageInfoTry
  rcases h : (runCmd env (dfCommand toolPath)).exitCode == 0 with _ | _ <;> simp [h]

theorem noExit_logStep (env : Env) (st : St) (m : String) (c : Nat) :
    Event.exit c ∉ (logStep env st m).2 := by
  simp [logStep, addToDebugLog]

theorem noExit_apps (toolPath : String) (env : Env) (st : St) (c : Nat) :
    Event.exit c ∉ (getInstalledApps toolPath env st).2 := by
  unfold getInstalledApps getInstalledAppsTry
  rcases h : (runCmd env (appsCommand toolPath)).exitCode == 0 with _ | _ <;> simp [h]

theorem noExit_storage (toolPath : String) (env : Env) (st : St) (c : Nat) :
    Event.exit c ∉ (getStorageInfo toolPath env st).2 := by
  unfold getStorageInfo getStorageInfoTry
  rcases h : (runCmd env (dfCommand toolPath)).exitCode == 0 with _ | _ <;> simp [h]

theorem noExit_connectDevice (toolPath : String) (env : Env) (st : St)
    (ip port : String) (c : Nat) :
    Event.exit c ∉ (connectDevice toolPath env st ip port).2 := by
  unfold connectDevice
  rcases h : (runCmd env (connectCommand ip port)).exitCode == 0 with _ | _ <;>
    simp [h, noExit_logStep, noExit_apps, noExit_storage]

theorem noExit_pairDevice (toolPath : String) (env : Env) (st : St)
    (ip port code : String) (c : Nat) :
    Event.exit c ∉ (pairDevice toolPath env st ip port code).2 := by
  unfold pairDevice
  rcases h : (runCmd env (pairCommand ip port code)).exitCode == 0 with _ | _ <;>
    simp [h, noExit_logStep, noExit_connectDevice]

theorem noExit_mainConnected (toolPath : String) (env : Env) (st : St) (c : Nat) :
    Event.exit c ∉ (mainConnected toolPath env st).2 := by
  simp [mainConnected, noExit_apps, noExit_storage]

theorem noExit_mainNotConnected (toolPath : String) (env : Env) (st : St) (c : Nat) :
    Event.exit c ∉ (mainNotConnected toolPath env st).2 := by
  simp [mainNotConnected, promptEvents, noExit_pairDevice, noExit_connectDevice]

theorem noExit_isDeviceConnected (env : Env) (st : St) (c : Nat) :
    Event.exit c ∉ (isDeviceConnected env st).2.2 := by
  simp [isDeviceConnected, noExit_logStep]

theorem noExit_firstExisting (env : Env) (l : List String) (c : Nat) :
    Event.exit c ∉ (firstExisting env l).2 := by
  induction l with
  | nil => simp [firstExisting]
  | cons p rest ih =>
    unfold firstExisting
    rcases h : fileExists env p with _ | _ <;> simp [h, ih]

/-! Claim theorems. -/

/-- C2, counterexample.  The claim states that whenever the shell invocation
completes with exit code 0 the executor result has empty stderr.  For the
input where the shell completes with exit code 0 but reports the stderr text
"warning: adb server version mismatch", the executor returns exit code 0
with that non-empty stderr, refuting the claim. -/
theorem claim2_counterexample :
    (execCommand (.completes "pkg list" "warning: adb server version mismatch" 0 "")).exitCode = 0 ∧
    (execCommand (.completes "pkg list" "warning: adb server version mismatch" 0 "")).stderr ≠ "" := by
  decide

/-- C2, amended.  For every command whose shell invocation completes with
exit code 0, the executor returns exit code 0 with the stdout and stderr
exactly as the shell reported them; stderr is empty only when the shell
reported it empty. -/
theorem claim2_amended :
    ∀ (out err errText : String),
      execCommand (.completes out err 0 errText) =
        { stdout := out, stderr := err, exitCode := 0 } := by
  intro out err errText
  simp [execCommand]

/-- C6.  For every error thrown during command execution — a non-zero exit
code raised by the `throws(true)` invocation, or any other thrown value —
the executor catches it and returns stdout "", exit code 1, and as stderr
the thrown error text when the thrown value is truthy and "Unknown error"
otherwise; being a total function of the invocation outcome, it never
propagates the exception. -/
theorem claim6_executor_catches :
    ∀ (text : String) (falsy : Bool) (out err errText : String) (code : Nat),
      execCommand (.raises text falsy) =
        { stdout := "", stderr := if falsy then "Unknown error" else text,
          exitCode := 1 } ∧
      (code ≠ 0 →
        execCommand (.completes out err code errText) =
          { stdout := "", stderr := errText, exitCode := 1 }) := by
  intro text falsy out err errText code
  constructor
  · cases falsy <;> simp [execCommand]
  · intro h
    simp [execCommand, h]

/-- C6, witness at a non-zero exit code. -/
theorem claim6_witness :
    (3 ≠ 0) ∧
    execCommand (.completes "o" "e" 3 "ShellError: failed") =
      { stdout := "", stderr := "ShellError: failed", exitCode := 1 } :=
  ⟨by decide, (claim6_executor_catches "x" false "o" "e" "ShellError: failed" 3).2 (by decide)⟩

/-- C4.  Over every executor result for the device-list command:
with exit code 0 and at most one non-blank line the prober returns false;
with exit code 0 and two or more non-blank lines it returns true; with a
non-zero exit code it returns false regardless of the line count.  The
second part ties the full routine to this decision. -/
theorem claim4_device_connected :
    (∀ (r : CmdResult),
      (r.exitCode = 0 → nonBlankLineCount r.stdout ≤ 1 →
        isDeviceConnectedResult r = false) ∧
      (r.exitCode = 0 → 2 ≤ nonBlankLineCount r.stdout →
        isDeviceConnectedResult r = true) ∧
      (r.exitCode ≠ 0 → isDeviceConnectedResult r = false)) ∧
    (∀ (env : Env) (st : St),
      (isDeviceConnected env st).1 = isDeviceConnectedResult (runCmd env "adb devices")) := by
  constructor
  · intro r
    refine ⟨?_, ?_, ?_⟩
    · intro h0 hle
      simp [isDeviceConnectedResult, h0]
      omega
    · intro h0 hge
      simp [isDeviceConnectedResult, h0]
      omega
    · intro hne
      simp [isDeviceConnectedResult, hne]
  · intro env st
    rfl

/-- C4, witness: a two-line device listing with exit code 0 is reported as
connected. -/
theorem claim4_witness :
    ((⟨"List of devices attached\nabcd\tdevice", "", 0⟩ : CmdResult).exitCode = 0 ∧
      2 ≤ nonBlankLineCount "List of devices attached\nabcd\tdevice") ∧
    isDeviceConnectedResult ⟨"List of devices attached\nabcd\tdevice", "", 0⟩ = true :=
  ⟨⟨by decide, by decide⟩,
   (claim4_device_connected.1 ⟨"List of devices attached\nabcd\tdevice", "", 0⟩).2.1
     (by decide) (by decide)⟩

/-- C10.  Every debug-logger call writes its line to the file path
"wearos_connector_debug.log " — with a trailing space, as in the source
string literal on line 50 — while the orchestrator announcement on
lines 228-233 names "wearos_connector_debug.log" without the space; the two
paths are different strings. -/
theorem claim10_log_path_mismatch :
    (∀ (d : DateTime) (msg log : String),
      (addToDebugLog d msg log).2 =
        [Event.fwrite "wearos_connector_debug.log " (logLine d msg),
         Event.out msg]) ∧
    savedMsg = "\nFull debug log has been saved to wearos_connector_debug.log" ∧
    logFilePath ≠ "wearos_connector_debug.log" := by
  refine ⟨fun d msg log => rfl, rfl, ?_⟩
  decide

/-- C5.  When `which adb` (run through the executor) exits 0 with non-empty
trimmed output, the locator returns exactly that trimmed output and probes
no fallback path; otherwise it returns the first path of the fixed ordered
fallback list whose file size is greater than zero, and none when no
fallback path qualifies (the `find?` form covers both). -/
theorem claim5_tool_locator :
    ∀ (env : Env),
      ((runCmd env "which adb").exitCode = 0 ∧
          jsTrim (runCmd env "which adb").stdout ≠ "" →
        (findAdbPath env).1 = some (jsTrim (runCmd env "which adb").stdout) ∧
        ∀ p, Event.probe p ∉ (findAdbPath env).2) ∧
      (¬((runCmd env "which adb").exitCode = 0 ∧
          jsTrim (runCmd env "which adb").stdout ≠ "") →
        (findAdbPath env).1 = (commonPaths env.home).find? (fileExists env)) := by
  intro env
  constructor
  · intro ⟨h0, ht⟩
    unfold findAdbPath
    have hc : ((runCmd env "which adb").exitCode == 0 &&
        (jsTrim (runCmd env "which adb").stdout != "")) = true := by
      simp [h0, ht]
    simp [hc]
  · intro h
    unfold findAdbPath
    have hc : ((runCmd env "which adb").exitCode == 0 &&
        (jsTrim (runCmd env "which adb").stdout != "")) = false := by
      rcases Bool.eq_false_or_eq_true ((runCmd env "which adb").exitCode == 0 &&
        (jsTrim (runCmd env "which adb").stdout != "")) with htr | hf
      · exfalso
        apply h
        simpa using htr
      · exact hf
    simp [hc, firstExisting_eq_find]

/-- C5, witness: with a successful `which adb` reporting a path followed by
a newline, the locator returns the trimmed path. -/
theorem claim5_witness :
    ((runCmd env5 "which adb").exitCode = 0 ∧
      jsTrim (runCmd env5 "which adb").stdout ≠ "") ∧
    (findAdbPath env5).1 = some (jsTrim (runCmd env5 "which adb").stdout) :=
  ⟨⟨by decide, by decide⟩,
   ((claim5_tool_locator env5).1 ⟨by decide, by decide⟩).1⟩

/-- C9.  The probe, pair and connect routines execute command strings built
from the literal program name "adb", independent of the resolved tool path
argument, while the package-list and disk-free routines execute command
strings that interpolate the resolved path; so when the tool was located
via the fallback list, the first three commands do not use the located
executable. -/
theorem claim9_literal_adb :
    ∀ (toolPath : String) (env : Env) (st : St) (ip port code : String),
      Event.run "adb devices" ∈ (isDeviceConnected env st).2.2 ∧
      Event.run ("adb pair " ++ ip ++ ":" ++ port ++ " " ++ code) ∈
        (pairDevice toolPath env st ip port code).2 ∧
      Event.run ("adb connect " ++ ip ++ ":" ++ port) ∈
        (connectDevice toolPath env st ip port).2 ∧
      Event.run (toolPath ++ " shell pm list packages") ∈
        (getInstalledApps toolPath env st).2 ∧
      Event.run (toolPath ++ " shell df") ∈ (getStorageInfo toolPath env st).2 := by
  intro toolPath env st ip port code
  refine ⟨?_, ?_, ?_, ?_, ?_⟩
  · simp [isDeviceConnected]
  · exact run_mem_pairDevice toolPath env st ip port code
  · exact run_mem_connectDevice toolPath env st ip port
  · exact run_mem_apps toolPath env st
  · exact run_mem_storage toolPath env st

/-- C7.  For every sequence of debug-logger calls made at valid instants,
the in-memory log is the concatenation, in call order, of one entry per
call; each entry is the ISO timestamp of that call followed by ": ", the
message passed by the call, and a newline, and the timestamp passes the
ISO-8601 check; and the event trace echoes every message to standard
output, in call order, alongside the file write of the entry. -/
theorem claim7_debug_log :
    ∀ (calls : List (DateTime × String)),
      (∀ c ∈ calls, ValidDT c.1) →
      (runLog calls "").1 = concatAll (calls.map logEntry) ∧
      (runLog calls "").2 =
        calls.flatMap
          (fun c => [Event.fwrite logFilePath (logEntry c), Event.out c.2]) ∧
      ∀ c ∈ calls,
        logEntry c = toISOString c.1 ++ ": " ++ c.2 ++ "\n" ∧
        validISO8601 (toISOString c.1) = true := by
  intro calls hvalid
  refine ⟨?_, (runLog_spec calls "").2, ?_⟩
  · rw [(runLog_spec calls "").1, String.empty_append]
  · intro c hc
    exact ⟨rfl, validISO_of_valid c.1 (hvalid c hc)⟩

/-- C7, witness at a two-call sequence. -/
theorem claim7_witness :
    (∀ c ∈ [(dt0, "hello"), (dt1, "world")], ValidDT c.1) ∧
    (runLog [(dt0, "hello"), (dt1, "world")] "").1 =
      concatAll ([(dt0, "hello"), (dt1, "world")].map logEntry) :=
  ⟨by decide, (claim7_debug_log [(dt0, "hello"), (dt1, "world")] (by decide)).1⟩

/-- C3, counterexample.  In the world `env3` the package-list command fails
and the executor reports the error text "adb: device offline", which
contains "device offline"; yet the installed-apps routine prints the
generic error, not the offline hint: the hint lives only in the catch
block, and the executor never throws. -/
theorem claim3_counterexample :
    ((runCmd env3 (appsCommand "/usr/bin/adb")).exitCode ≠ 0 ∧
      jsIncludes (runCmd env3 (appsCommand "/usr/bin/adb")).stderr "device offline" = true) ∧
    Event.errColored offlineHint "yellow" ∉
      (getInstalledApps "/usr/bin/adb" env3 ⟨"", 0⟩).2 ∧
    Event.errColored ("Failed to get installed apps: adb: device offline") "red" ∈
      (getInstalledApps "/usr/bin/adb" env3 ⟨"", 0⟩).2 := by
  decide

/-- C3, amended.  For every failing command in the installed-apps and
storage-info routines the generic error is printed — regardless of whether
the error text contains "device offline" — and the specific offline hint
is never printed on these paths; the hint branch belongs to the catch
handlers, which a command failure never reaches because the executor
returns normally. -/
theorem claim3_amended :
    ∀ (toolPath : String) (env : Env) (st : St),
      ((runCmd env (appsCommand toolPath)).exitCode ≠ 0 →
        (getInstalledApps toolPath env st).2 =
          [Event.run (appsCommand toolPath),
           Event.errColored
             ("Failed to get installed apps: " ++
               (runCmd env (appsCommand toolPath)).stderr) "red"]) ∧
      Event.errColored offlineHint "yellow" ∉ (getInstalledApps toolPath env st).2 ∧
      ((runCmd env (dfCommand toolPath)).exitCode ≠ 0 →
        (getStorageInfo toolPath env st).2 =
          [Event.run (dfCommand toolPath),
           Event.errColored
             ("Failed to get storage info: " ++
               (runCmd env (dfCommand toolPath)).stderr) "red"]) ∧
      Event.errColored offlineHint "yellow" ∉ (getStorageInfo toolPath env st).2 := by
  intro toolPath env st
  refine ⟨?_, ?_, ?_, ?_⟩
  · intro h
    unfold getInstalledApps getInstalledAppsTry
    have hc : ((runCmd env (appsCommand toolPath)).exitCode == 0) = false := by
      simp [h]
    simp [hc]
  · unfold getInstalledApps getInstalledAppsTry
    rcases hc : (runCmd env (appsCommand toolPath)).exitCode == 0 with _ | _ <;>
      simp [hc, offlineHint]
  · intro h
    unfold getStorageInfo getStorageInfoTry
    have hc : ((runCmd env (dfCommand toolPath)).exitCode == 0) = false := by
      simp [h]
    simp [hc]
  · unfold getStorageInfo getStorageInfoTry
    rcases hc : (runCmd env (dfCommand toolPath)).exitCode == 0 with _ | _ <;>
      simp [hc, offlineHint]

/-- C3, witness: a failing package-list command with offline error text
still yields the generic error print. -/
theorem claim3_witness :
    (runCmd env3 (appsCommand "/usr/bin/adb")).exitCode ≠ 0 ∧
    (getInstalledApps "/usr/bin/adb" env3 ⟨"", 0⟩).2 =
      [Event.run (appsCommand "/usr/bin/adb"),
       Event.errColored
         ("Failed to get installed apps: " ++
           (runCmd env3 (appsCommand "/usr/bin/adb")).stderr) "red"] :=
  ⟨by decide, (claim3_amended "/usr/bin/adb" env3 ⟨"", 0⟩).1 (by decide)⟩

/-- C1, counterexample.  In the world `env1` the tool is found, no device
is connected, and the pair command fails: the run prints the pairing
failure, yet the trace of the whole run still contains the execution of
the connect command — `main` invokes the connect routine unconditionally
after the failed pairing (line 222) — while the pairing routine itself,
run from the same state, never executes it. -/
theorem claim1_counterexample :
    Event.errColored "Pairing failed: ShellError: pairing failed" "red" ∈
      (mainRun env1).2 ∧
    Event.run "adb connect 10.0.0.2:5555" ∈ (mainRun env1).2 ∧
    Event.run "adb connect 10.0.0.2:5555" ∉
      (pairDevice "/usr/bin/adb" env1 (isDeviceConnected env1 ⟨"", 0⟩).2.1
        "10.0.0.2" "5555" "123456").2 := by
  decide

/-- C1, amended.  In the not-connected flow, when the pair command reports
a non-zero exit code the pairing routine prints the error and does not
itself invoke the connect routine — its trace is exactly `pairFailTrace`,
whose only executed command is the pair command — but the orchestrator
then invokes the connect routine unconditionally (line 222), so the caller
chain does not stop at the failed pairing: the connect command is still
executed afterwards. -/
theorem claim1_amended :
    ∀ (toolPath : String) (env : Env) (st : St),
      (runCmd env (pairCommand env.ip env.port env.pairCode)).exitCode ≠ 0 →
      (pairDevice toolPath env st env.ip env.port env.pairCode).2 =
        pairFailTrace env st env.ip env.port env.pairCode ∧
      (∀ c, Event.run c ∈ pairFailTrace env st env.ip env.port env.pairCode →
        c = pairCommand env.ip env.port env.pairCode) ∧
      (mainNotConnected toolPath env st).2 =
        promptEvents ++
          (pairDevice toolPath env st env.ip env.port env.pairCode).2 ++
          (connectDevice toolPath env
            (pairDevice toolPath env st env.ip env.port env.pairCode).1
            env.ip env.port).2 ∧
      Event.run (connectCommand env.ip env.port) ∈
        (connectDevice toolPath env
          (pairDevice toolPath env st env.ip env.port env.pairCode).1
          env.ip env.port).2 := by
  intro toolPath env st h
  have hc : ((runCmd env (pairCommand env.ip env.port env.pairCode)).exitCode == 0) = false := by
    simp [h]
  refine ⟨?_, ?_, rfl, ?_⟩
  · unfold pairDevice pairFailTrace
    simp [hc]
  · intro c hmem
    simp [pairFailTrace, logStep, addToDebugLog] at hmem
    exact hmem
  · exact run_mem_connectDevice toolPath env
      (pairDevice toolPath env st env.ip env.port env.pairCode).1 env.ip env.port

/-- C1, witness: in the world `env1` the pair command fails and the pairing
routine trace is exactly the failure trace. -/
theorem claim1_witness :
    (runCmd env1 (pairCommand env1.ip env1.port env1.pairCode)).exitCode ≠ 0 ∧
    (pairDevice "/usr/bin/adb" env1 ⟨"", 1⟩ env1.ip env1.port env1.pairCode).2 =
      pairFailTrace env1 ⟨"", 1⟩ env1.ip env1.port env1.pairCode :=
  ⟨by decide, (claim1_amended "/usr/bin/adb" env1 ⟨"", 1⟩ (by decide)).1⟩

theorem noExit_findAdbPath (env : Env) (c : Nat) :
    Event.exit c ∉ (findAdbPath env).2 := by
  unfold findAdbPath
  rcases hc : ((runCmd env "which adb").exitCode == 0 &&
      (jsTrim (runCmd env "which adb").stdout != "")) with _ | _ <;>
    simp [hc, noExit_firstExisting]

/-- C8.  For every run in which the tool locator returns a non-null path,
no failure of any downstream routine escapes to the orchestrator — the
embedded routines are total and the trace contains no `process.exit`
event — and the orchestrator always reaches its final debug-log-printing
step: the run trace ends with `finishEvents` over the final in-memory log. -/
theorem claim8_orchestrator :
    ∀ (env : Env),
      (findAdbPath env).1 ≠ none →
      (∀ c, Event.exit c ∉ (mainRun env).2) ∧
      ∃ pre, (mainRun env).2 = pre ++ finishEvents (mainRun env).1.log := by
  intro env h
  rcases hF : (findAdbPath env).1 with _ | p
  · exact absurd hF h
  constructor
  · intro c
    simp only [mainRun, hF]
    rcases hp : (isDeviceConnected env ⟨"", 0⟩).1 with _ | _ <;>
      simp [hp, noExit_findAdbPath, noExit_isDeviceConnected,
        noExit_mainConnected, noExit_mainNotConnected, finishEvents]
  · simp only [mainRun, hF]
    refine ⟨Event.outColored "WearOS Connector" "cyan" ::
      ((findAdbPath env).2 ++
        Event.outColored ("ADB found at: " ++ p) "green" ::
          ((isDeviceConnected env ⟨"", 0⟩).2.2 ++
            (if (isDeviceConnected env ⟨"", 0⟩).1 = true then
              mainConnected p env (isDeviceConnected env ⟨"", 0⟩).2.1
            else mainNotConnected p env (isDeviceConnected env ⟨"", 0⟩).2.1).2)), ?_⟩
    simp [List.cons_append, List.append_assoc]

/-- C8, witness: in the world `env1` the tool is found and the run trace
contains no process-exit event. -/
theorem claim8_witness :
    (findAdbPath env1).1 ≠ none ∧ ∀ c, Event.exit c ∉ (mainRun env1).2 :=
  ⟨by decide, (claim8_orchestrator env1 (by decide)).1⟩
